import Mathlib

/-!
Verification of the WhatsAppBot repository (src/app.py and src/main.py):
a shallow embedding of the feature-flag enforcement engine, the webhook
message router, the webhook verification handlers, the outbound send
payload construction, and the team-inbox conversation handoff logic,
followed by theorems settling the frozen claims about them.
-/

namespace WhatsAppBot

/-! ## Python string primitives

Character-list implementations of the Python string methods the code uses
(`str.lower`, `str.strip`, slicing), on the ASCII range the code's
keywords and deny-list live in. -/

/-- ASCII lowercasing of one character, as Python `str.lower` acts on
`A`-`Z`. -/
def pyCharLower (c : Char) : Char :=
  if c.toNat ≥ 65 && c.toNat ≤ 90 then Char.ofNat (c.toNat + 32) else c

/-- Python `s.lower()`. -/
def strLower (s : String) : String :=
  String.mk (s.data.map pyCharLower)

/-- Python `s.strip()`: drop leading and trailing whitespace. -/
def strTrim (s : String) : String :=
  String.mk (((s.data.dropWhile Char.isWhitespace).reverse.dropWhile
    Char.isWhitespace).reverse)

/-- Python `s[:n]`: the first `n` characters. -/
def strTake (s : String) (n : Nat) : String :=
  String.mk (s.data.take n)

/-! ## Plan catalog (src/app.py lines 60-91) -/

def F_MARKET_BRIEF : String := "F_MARKET_BRIEF"
def F_WHY_MARKET_MOVED : String := "F_WHY_MARKET_MOVED"
def F_RISK_RADAR : String := "F_RISK_RADAR"
def F_CALL_PRIORITY : String := "F_CALL_PRIORITY"
def F_SEBI_ADVISORY : String := "F_SEBI_ADVISORY"
def F_CLIENT_AI : String := "F_CLIENT_AI"
def F_CALL_AI : String := "F_CALL_AI"
def F_VOICE_REPLY : String := "F_VOICE_REPLY"
def F_COMPLIANCE_LOG : String := "F_COMPLIANCE_LOG"

/-- `PLAN_FEATURES`: the static plan → feature-set dict, as an association
list in the source's insertion order.  Sets are modelled as lists of keys. -/
def PLAN_FEATURES : List (String × List String) :=
  [ ("starter", [F_MARKET_BRIEF, F_WHY_MARKET_MOVED, F_SEBI_ADVISORY, F_CLIENT_AI, F_COMPLIANCE_LOG]),
    ("pro", [F_MARKET_BRIEF, F_WHY_MARKET_MOVED, F_RISK_RADAR, F_CALL_PRIORITY, F_SEBI_ADVISORY, F_CLIENT_AI, F_COMPLIANCE_LOG]),
    ("elite", [F_MARKET_BRIEF, F_WHY_MARKET_MOVED, F_RISK_RADAR, F_CALL_PRIORITY, F_SEBI_ADVISORY, F_CLIENT_AI, F_CALL_AI, F_VOICE_REPLY, F_COMPLIANCE_LOG]),
    ("enterprise", [F_MARKET_BRIEF, F_WHY_MARKET_MOVED, F_RISK_RADAR, F_CALL_PRIORITY, F_SEBI_ADVISORY, F_CLIENT_AI, F_CALL_AI, F_VOICE_REPLY, F_COMPLIANCE_LOG]) ]

/-- `DEFAULT_FLAGS_ON` (src/app.py lines 77-87). -/
def DEFAULT_FLAGS_ON : List (String × Bool) :=
  [ (F_MARKET_BRIEF, true), (F_WHY_MARKET_MOVED, true), (F_SEBI_ADVISORY, true),
    (F_CLIENT_AI, true), (F_COMPLIANCE_LOG, true), (F_RISK_RADAR, false),
    (F_CALL_PRIORITY, false), (F_CALL_AI, false), (F_VOICE_REPLY, false) ]

/-- `allowed_features(plan)` (src/app.py lines 90-91):
`PLAN_FEATURES.get((plan or "").lower(), PLAN_FEATURES["starter"])`.
A Python `None` plan can only come from an absent column, which the schema
forbids (`nullable=False`), so the argument is a plain string here; `or ""`
is then the identity on it except for mapping the falsy empty string to
itself. -/
def allowed_features (plan : String) : List String :=
  (PLAN_FEATURES.lookup (strLower plan)).getD
    [F_MARKET_BRIEF, F_WHY_MARKET_MOVED, F_SEBI_ADVISORY, F_CLIENT_AI, F_COMPLIANCE_LOG]

/-! ## Data model of the app.py database (src/app.py lines 109-149) -/

structure Tenant where
  id : Nat
  name : String
  plan : String
  deriving Repr, DecidableEq

structure FeatureFlag where
  tenant_id : Nat
  flag_key : String
  enabled : Bool
  deriving Repr, DecidableEq

structure MessageLog where
  tenant_id : Nat
  wa_from : String
  wa_to : String
  direction : String
  message : String
  deriving Repr, DecidableEq

/-- The persistent state touched by the flows under verification: the
`tenants` and `feature_flags` tables (row lists in insertion order) and the
`message_logs` table. -/
structure DB where
  tenants : List Tenant
  flags : List FeatureFlag
  logs : List MessageLog
  deriving Repr, DecidableEq

/-- `db.get(Tenant, tenant_id)`: primary-key lookup. -/
def DB.getTenant (db : DB) (tenant_id : Nat) : Option Tenant :=
  db.tenants.find? (fun t => t.id == tenant_id)

/-- Python-dict insertion: overwrite in place when the key exists, else
append (preserving dict insertion order). -/
def dictInsert (d : List (String × Bool)) (k : String) (v : Bool) :
    List (String × Bool) :=
  if d.any (fun p => p.1 == k) then
    d.map (fun p => if p.1 == k then (k, v) else p)
  else d ++ [(k, v)]

/-- `{r.flag_key: bool(r.enabled) for r in rows}`: dict comprehension over a
row list. -/
def mkFlagDict (rows : List FeatureFlag) : List (String × Bool) :=
  rows.foldl (fun d r => dictInsert d r.flag_key r.enabled) []

/-- `get_flags(db, tenant_id)` (src/app.py lines 180-182). -/
def get_flags (db : DB) (tenant_id : Nat) : List (String × Bool) :=
  mkFlagDict (db.flags.filter (fun r => r.tenant_id == tenant_id))

/-- `is_enabled(db, tenant_id, flag_key)` (src/app.py lines 213-215):
`db.scalar(select(...))` yields the first matching row; absent row ⇒ false. -/
def is_enabled (db : DB) (tenant_id : Nat) (flag_key : String) : Bool :=
  match db.flags.find? (fun r => r.tenant_id == tenant_id && r.flag_key == flag_key) with
  | some row => row.enabled
  | none => false

/-- Result of `enforce_plan`: the post-call session state, the returned
flag mapping, and whether `db.commit()` ran (the `changed` variable). -/
structure EnforceResult where
  db : DB
  mapping : List (String × Bool)
  changed : Bool
  deriving Repr, DecidableEq

/-- The loop-body test of `enforce_plan` (src/app.py line 205): the row
belongs to the tenant, is enabled, and its key is not in the allowed set. -/
def flagViolates (tenant_id : Nat) (allow : List String) (r : FeatureFlag) : Bool :=
  r.tenant_id == tenant_id && r.enabled && !(allow.contains r.flag_key)

/-- One iteration of the `enforce_plan` loop (src/app.py lines 204-207):
a violating row is disabled in place, any other row is untouched. -/
def enforceStep (tenant_id : Nat) (allow : List String) (r : FeatureFlag) : FeatureFlag :=
  if flagViolates tenant_id allow r then { r with enabled := false } else r

/-- `enforce_plan(db, tenant_id)` (src/app.py lines 197-210): load the
tenant (missing tenant ⇒ empty mapping, no writes); disable every row of
the tenant that is enabled but not in `allowed_features(tenant.plan)`;
commit only if at least one row changed; return the mapping built from the
(mutated) selected rows. -/
def enforce_plan (db : DB) (tenant_id : Nat) : EnforceResult :=
  match db.getTenant tenant_id with
  | none => ⟨db, [], false⟩
  | some tenant =>
    let allow := allowed_features tenant.plan
    let changed := db.flags.any (flagViolates tenant_id allow)
    let flags' := db.flags.map (enforceStep tenant_id allow)
    let rows := flags'.filter (fun r => r.tenant_id == tenant_id)
    ⟨{ db with flags := flags' }, mkFlagDict rows, changed⟩

/-- `log_message(db, tenant_id, wa_from, wa_to, direction, message)`
(src/app.py lines 218-226): insert a `MessageLog` row and commit. -/
def log_message (db : DB) (tenant_id : Nat) (wa_from wa_to direction message : String) : DB :=
  { db with logs := db.logs ++ [⟨tenant_id, wa_from, wa_to, direction, message⟩] }

/-! ## Outbound send payloads (src/app.py lines 236-244, src/main.py lines 159-164) -/

/-- The JSON body `{messaging_product, to, type, text: {body}}` posted to the
provider for a text send. -/
structure WASendPayload where
  messaging_product : String
  dest : String
  type : String
  body : String
  deriving Repr, DecidableEq

/-- Payload built by app.py `send_text` (line 241): the body is the input
text, unmodified. -/
def send_text_payload (dest text : String) : WASendPayload :=
  ⟨"whatsapp", dest, "text", text⟩

/-- Payload built by main.py `wa_send_text` (line 162): the body is
`text[:4096]`, the first 4096 characters. -/
def wa_send_text_payload (dest text : String) : WASendPayload :=
  ⟨"whatsapp", dest, "text", strTake text 4096⟩

/-! ## Webhook verification (src/app.py lines 333-340, src/main.py lines 144-157) -/

/-- Responses of the verification GET handlers: a 200 plain-text response
with the given body, or a 403-class failure (app.py raises
HTTPException(403), main.py returns a 403 PlainTextResponse). -/
inductive VerifyResponse where
  | ok (body : String)
  | forbidden
  deriving Repr, DecidableEq

/-- Python `str(x)` on an optional string: `str(None) = "None"`. -/
def pyStr (o : Option String) : String :=
  match o with
  | some s => s
  | none => "None"

/-- Python truthiness of an optional string: `None` and `""` are falsy. -/
def optTruthy (o : Option String) : Bool :=
  match o with
  | some s => !(s == "")
  | none => false

/-- app.py `wa_verify` (lines 333-340).  `request.query_params.get` yields
`None` for an absent parameter, hence the `Option String` arguments;
`secret` is the configured `WHATSAPP_VERIFY_TOKEN`. -/
def wa_verify (secret : String) (mode token challenge : Option String) : VerifyResponse :=
  if mode == some "subscribe" && token == some secret then
    VerifyResponse.ok (pyStr challenge)
  else VerifyResponse.forbidden

/-- main.py `verify_webhook` (lines 144-157): all three parameters falsy ⇒
200 "OK"; correct mode and token and a truthy challenge ⇒ echo the
challenge; otherwise 403. -/
def verify_webhook (secret : String) (mode token challenge : Option String) : VerifyResponse :=
  if !optTruthy mode && !optTruthy token && !optTruthy challenge then
    VerifyResponse.ok "OK"
  else if mode == some "subscribe" && token == some secret && optTruthy challenge then
    VerifyResponse.ok (challenge.getD "")
  else VerifyResponse.forbidden

/-! ## Inbound parsing and the message router (src/app.py lines 285-306, 343-428) -/

/-- Substring test on character lists: Python `pat in s`. -/
def listContainsSub (pat : List Char) : List Char → Bool
  | [] => pat.isEmpty
  | c :: t => pat.isPrefixOf (c :: t) || listContainsSub pat t

/-- Python `pat in s` on strings. -/
def containsSub (s pat : String) : Bool :=
  listContainsSub pat.data s.data

/-- The content of the first inbound message, as inspected by
`parse_inbound`: a text message (carrying `msg["text"]["body"]`), an
interactive list/button reply (carrying the reply id), some other
interactive subtype, or any other message type. -/
inductive MsgContent where
  | text (body : String)
  | listReply (reply_id : String)
  | buttonReply (reply_id : String)
  | interactiveOther
  | other
  deriving Repr, DecidableEq

structure WAMessage where
  msg_from : String
  content : MsgContent
  deriving Repr, DecidableEq

/-- The `entry[0].changes[0].value` object of an inbound webhook POST:
an optional `messages` array (absent or empty both read back as `[]`
through `entry.get("messages", [])`) and the metadata display phone. -/
structure WAValue where
  messages : List WAMessage
  display_phone_number : String
  deriving Repr, DecidableEq

/-- `parse_inbound(payload)` (src/app.py lines 285-306): `none` models the
`None, None, None` return for an empty/absent `messages` array; otherwise
`(wa_from, wa_to, text_body)`. -/
def parse_inbound (payload : WAValue) : Option (String × String × String) :=
  match payload.messages with
  | [] => none
  | msg :: _ =>
    let text_body :=
      match msg.content with
      | MsgContent.text b => strTrim b
      | MsgContent.listReply i => i
      | MsgContent.buttonReply i => i
      | _ => ""
    some (msg.msg_from, payload.display_phone_number, text_body)

/-- Observable side effects of app.py's inbound handler: a select over the
tenant's `feature_flags` rows, a commit of flag changes, an outbound
menu/text send, and a `message_logs` insert. -/
inductive Effect where
  | flagRead
  | flagCommit
  | sendMenu (dest : String)
  | sendText (dest : String) (body : String)
  | storeLog (direction : String) (message : String)
  deriving Repr, DecidableEq

def ROUTE_MENU_KEYWORDS : List String := ["hi", "hello", "menu", "start"]

/-- The risk-language deny-list of src/app.py line 419. -/
def RISK_WORDS : List String := ["guarantee", "sure", "100%", "fixed return"]

/-- The fixed compliance-safe rewrite template (src/app.py line 420). -/
def SAFE_REWRITE : String :=
  "✅ SEBI-safe version:\n“This is market-linked and subject to risk. Please consider your risk profile before investing.”\n\n(Connect your exact templates next)"

def MARKET_BRIEF_LOCKED : String := "🔒 Market Brief is not enabled on your plan."
def MARKET_BRIEF_TEXT : String :=
  "📌 Market Brief (demo)\n• NIFTY: -0.42%\n• BANKNIFTY: Weak\n• FII: Net sellers\n\n(Connect live data feed next)"
def WHY_MOVED_LOCKED : String := "🔒 Why Market Moved is not enabled on your plan."
def WHY_MOVED_TEXT : String :=
  "🧠 Why Market Moved (demo)\nOI unwinding + global yield move.\n(Connect news + derivatives feed next)"
def RISK_ALERTS_LOCKED : String := "🔒 Risk Radar is a Pro feature. Reply \x27Upgrade\x27 to enable."
def RISK_ALERTS_TEXT : String :=
  "🔴 Risk Alerts (demo)\n• Client A: high margin usage\n• Client B: panic pattern\n(Connect client trades next)"
def CALL_PRIORITY_LOCKED : String := "🔒 Call Priority is a Pro feature. Reply \x27Upgrade\x27 to enable."
def CALL_PRIORITY_TEXT : String :=
  "📞 Priority Calls (demo)\n1) Client X — drawdown\n2) Client Y — expiry risk\n3) Client Z — panic history"
def SEBI_ADVISORY_LOCKED : String := "🔒 SEBI Advisory Generator is not enabled on your plan."
def SEBI_ADVISORY_TEXT : String :=
  "✅ Paste the message you want to rewrite in SEBI-safe language (demo)."
def CLIENT_AI_LOCKED : String := "🔒 Client Query Assistant is not enabled on your plan."
def CLIENT_AI_TEXT : String :=
  "🤖 Client Query Assistant (demo)\nAsk like: \x27Reliance ka kya karu?\x27\n(Connect portfolio + risk profile next)"
def CALL_SUMMARY_LOCKED : String := "🔒 Call AI summaries are an Elite feature. Reply \x27Upgrade\x27 to enable."
def CALL_SUMMARY_TEXT : String :=
  "📞 Call Summary (demo)\nEmotion: anxious\nRisky promises: none\nFollow-up: suggested"
def FALLBACK_TEXT : String := "Reply \x27Menu\x27 to see options."

/-- The settings reply (src/app.py lines 411-416). -/
def settings_text (db : DB) (tenant_id : Nat) : String :=
  let planStr :=
    match db.getTenant tenant_id with
    | some t => t.plan
    | none => "starter"
  let flags := get_flags db tenant_id
  let enabled := (flags.filter (fun p => p.2)).map (fun p => p.1.replace "F_" "")
  "⚙️ Current Plan: " ++ planStr ++ "\nEnabled: " ++
    (if enabled.isEmpty then "(none)" else String.intercalate ", " enabled) ++
    "\n\nAdmin can upgrade from dashboard."

/-- The routing chain of `wa_inbound` after the inbound-compliance log
(src/app.py lines 356-425): returns the post-call database and the emitted
effects, in program order.  Every `is_enabled` call emits `flagRead`; the
settings branch's `get_flags` select likewise. -/
def route (db : DB) (tenant_id : Nat) (wa_from wa_to body : String) :
    DB × List Effect :=
  if ROUTE_MENU_KEYWORDS.contains (strLower body) then
    if is_enabled db tenant_id F_COMPLIANCE_LOG then
      (log_message db tenant_id wa_from wa_to "outbound" "MENU_SENT",
        [Effect.sendMenu wa_from, Effect.flagRead, Effect.storeLog "outbound" "MENU_SENT"])
    else (db, [Effect.sendMenu wa_from, Effect.flagRead])
  else if body == "MARKET_BRIEF" then
    (db, [Effect.flagRead, Effect.sendText wa_from
      (if is_enabled db tenant_id F_MARKET_BRIEF then MARKET_BRIEF_TEXT else MARKET_BRIEF_LOCKED)])
  else if body == "WHY_MARKET_MOVED" then
    (db, [Effect.flagRead, Effect.sendText wa_from
      (if is_enabled db tenant_id F_WHY_MARKET_MOVED then WHY_MOVED_TEXT else WHY_MOVED_LOCKED)])
  else if body == "RISK_ALERTS" then
    (db, [Effect.flagRead, Effect.sendText wa_from
      (if is_enabled db tenant_id F_RISK_RADAR then RISK_ALERTS_TEXT else RISK_ALERTS_LOCKED)])
  else if body == "CALL_PRIORITY" then
    (db, [Effect.flagRead, Effect.sendText wa_from
      (if is_enabled db tenant_id F_CALL_PRIORITY then CALL_PRIORITY_TEXT else CALL_PRIORITY_LOCKED)])
  else if body == "SEBI_ADVISORY" then
    (db, [Effect.flagRead, Effect.sendText wa_from
      (if is_enabled db tenant_id F_SEBI_ADVISORY then SEBI_ADVISORY_TEXT else SEBI_ADVISORY_LOCKED)])
  else if body == "CLIENT_AI" then
    (db, [Effect.flagRead, Effect.sendText wa_from
      (if is_enabled db tenant_id F_CLIENT_AI then CLIENT_AI_TEXT else CLIENT_AI_LOCKED)])
  else if body == "CALL_SUMMARY" then
    (db, [Effect.flagRead, Effect.sendText wa_from
      (if is_enabled db tenant_id F_CALL_AI then CALL_SUMMARY_TEXT else CALL_SUMMARY_LOCKED)])
  else if body == "SETTINGS" || ["settings", "upgrade"].contains (strLower body) then
    (db, [Effect.flagRead, Effect.sendText wa_from (settings_text db tenant_id)])
  else if is_enabled db tenant_id F_SEBI_ADVISORY && decide (body.length > 15) &&
      RISK_WORDS.any (fun x => containsSub (strLower body) x) then
    (db, [Effect.flagRead, Effect.sendText wa_from SAFE_REWRITE])
  else
    (db, [Effect.flagRead, Effect.sendText wa_from FALLBACK_TEXT])

/-- Result of app.py `wa_inbound`: post-call database, whether the JSON
response had `ok: true`, and the emitted effects in order. -/
structure InboundResult where
  db : DB
  ok : Bool
  effects : List Effect
  deriving Repr, DecidableEq

/-- app.py `wa_inbound` (lines 343-428): pricing enforcement runs on every
delivery (line 346) before the payload is even parsed; an empty/absent
`messages` array or a falsy sender/body then short-circuits to `ok: true`;
otherwise the inbound is compliance-logged when `F_COMPLIANCE_LOG` is on
and the body is routed. -/
def wa_inbound (db : DB) (tenant_id : Nat) (payload : WAValue) : InboundResult :=
  let er := enforce_plan db tenant_id
  let enfEffects := Effect.flagRead :: (if er.changed then [Effect.flagCommit] else [])
  match parse_inbound payload with
  | none => ⟨er.db, true, enfEffects⟩
  | some (wa_from, wa_to, body) =>
    if wa_from == "" || body == "" then ⟨er.db, true, enfEffects⟩
    else
      let compOn := is_enabled er.db tenant_id F_COMPLIANCE_LOG
      let db2 := if compOn then log_message er.db tenant_id wa_from wa_to "inbound" body else er.db
      let logEff := if compOn then [Effect.storeLog "inbound" body] else []
      let rt := route db2 tenant_id wa_from wa_to body
      ⟨rt.1, true, enfEffects ++ [Effect.flagRead] ++ logEff ++ rt.2⟩

/-! ## main.py inbox model (src/main.py lines 45-71, 167-253, 386-416) -/

structure Conversation where
  id : Nat
  wa_id : String
  customer_name : Option String
  status : String
  mode : String
  assigned_agent_id : Option Nat
  deriving Repr, DecidableEq

structure InboxMessage where
  id : Nat
  conversation_id : Nat
  direction : String
  message_id : Option String
  text : String
  ts : Nat
  sent_by_agent_id : Option Nat
  sent_by_ai : Nat
  deriving Repr, DecidableEq

/-- The inbox database: `conversations` and `messages` tables plus the
autoincrement counters supplying fresh primary keys.  Wall-clock columns
(`last_message_at`, `created_at`) are not modelled; no claim reads them. -/
structure InboxState where
  convs : List Conversation
  msgs : List InboxMessage
  nextConvId : Nat
  nextMsgId : Nat
  deriving Repr, DecidableEq

/-- `get_ai_reply(conversation_id, user_text)` (src/main.py lines 167-170). -/
def get_ai_reply (conversation_id : Nat) (user_text : String) : String :=
  "AI reply placeholder: " ++ user_text

/-- `upsert_conversation(db, wa_id, customer_name)` (src/main.py lines
172-183): find by `wa_id`; create with defaults `status="open"`,
`mode="ai"`, unassigned when absent; otherwise fill in a missing customer
name.  Returns the new state and the conversation row. -/
def upsert_conversation (st : InboxState) (wa_id : String) (customer_name : Option String) :
    InboxState × Conversation :=
  match st.convs.find? (fun c => c.wa_id == wa_id) with
  | none =>
    let conv : Conversation := ⟨st.nextConvId, wa_id, customer_name, "open", "ai", none⟩
    ({ st with convs := st.convs ++ [conv], nextConvId := st.nextConvId + 1 }, conv)
  | some conv =>
    if optTruthy customer_name && !optTruthy conv.customer_name then
      let conv' := { conv with customer_name := customer_name }
      ({ st with convs := st.convs.map (fun c => if c.id == conv.id then conv' else c) }, conv')
    else (st, conv)

/-- Result of `save_message`: the new state, the returned row, and whether
a new row was inserted. -/
structure SaveResult where
  st : InboxState
  msg : InboxMessage
  inserted : Bool
  deriving Repr, DecidableEq

/-- `save_message(db, conv_id, direction, text, message_id, ...)`
(src/main.py lines 185-203): when `message_id` is truthy (non-None and
non-empty) and a row with that id exists, return it without inserting;
otherwise insert a fresh row. -/
def save_message (st : InboxState) (conv_id : Nat) (direction text : String)
    (message_id : Option String) (sent_by_agent_id : Option Nat) (sent_by_ai : Nat)
    (ts : Nat) : SaveResult :=
  let fresh : InboxMessage :=
    ⟨st.nextMsgId, conv_id, direction, message_id, text, ts, sent_by_agent_id, sent_by_ai⟩
  let insert : SaveResult :=
    ⟨{ st with msgs := st.msgs ++ [fresh], nextMsgId := st.nextMsgId + 1 }, fresh, true⟩
  if optTruthy message_id then
    match st.msgs.find? (fun m => m.message_id == message_id) with
    | some m => ⟨st, m, false⟩
    | none => insert
  else insert

/-- Observable side effects of main.py's webhook handler: the AI call, the
outbound provider send, and a `messages` insert. -/
inductive MEffect where
  | aiCall
  | waSend (dest : String) (body : String)
  | storeMsg (direction : String)
  deriving Repr, DecidableEq

/-- main.py webhook JSON responses: `{"status":"ok"}`,
`{"status":"ok","wa_send_status":...}`, `{"status":"error",...}`. -/
inductive WebhookResponse where
  | ok
  | okSent
  | error
  deriving Repr, DecidableEq

/-- Fields of the first inbound message read by `receive_webhook`:
`msg.get("from")`, `(msg.get("text") or {}).get("body", "")`,
`msg.get("id")`, and `int(msg.get("timestamp"))` — `none` for the
timestamp models a missing or non-numeric value, which raises and is
caught at the handler boundary. -/
structure WHMessage where
  msg_from : Option String
  text_body : Option String
  msg_id : Option String
  timestamp : Option Nat
  deriving Repr, DecidableEq

/-- The `entry[0].changes[0].value` object seen by `receive_webhook`:
the `messages` array and the contact profile names. -/
structure WHPayload where
  messages : List WHMessage
  contact_names : List (Option String)
  deriving Repr, DecidableEq

/-- main.py `receive_webhook` (lines 206-253): no `messages` ⇒ plain ok
with no effects; a bad timestamp raises into the error acknowledgment; a
falsy sender or empty body ⇒ plain ok; otherwise upsert the conversation,
store the inbound (deduplicated), and auto-reply via the AI + provider
send only when the conversation is not in `"human"` mode. -/
def receive_webhook (st : InboxState) (p : WHPayload) :
    InboxState × WebhookResponse × List MEffect :=
  match p.messages with
  | [] => (st, WebhookResponse.ok, [])
  | msg :: _ =>
    match msg.timestamp with
    | none => (st, WebhookResponse.error, [])
    | some ts =>
      let text_body := strTrim (msg.text_body.getD "")
      let customer_name := p.contact_names.headD none
      if !optTruthy msg.msg_from || text_body == "" then (st, WebhookResponse.ok, [])
      else
        let fromN := msg.msg_from.getD ""
        let up := upsert_conversation st fromN customer_name
        let conv := up.2
        let sr := save_message up.1 conv.id "inbound" text_body msg.msg_id none 0 ts
        let inEff := if sr.inserted then [MEffect.storeMsg "inbound"] else []
        if conv.mode == "human" then (sr.st, WebhookResponse.ok, inEff)
        else
          let ai_text := get_ai_reply conv.id text_body
          let sr2 := save_message sr.st conv.id "outbound" ai_text none none 1 ts
          (sr2.st, WebhookResponse.okSent,
            inEff ++ [MEffect.aiCall, MEffect.waSend fromN ai_text, MEffect.storeMsg "outbound"])

/-- `assign_to_me` (src/main.py lines 386-399): set the assignee to the
logged-in agent and force `mode = "human"`. -/
def assign_to_me (st : InboxState) (agent_id : Nat) (conv_id : Nat) : InboxState :=
  match st.convs.find? (fun c => c.id == conv_id) with
  | none => st
  | some conv =>
    let conv' := { conv with assigned_agent_id := some agent_id, mode := "human" }
    { st with convs := st.convs.map (fun c => if c.id == conv_id then conv' else c) }

/-- `set_mode` (src/main.py lines 401-416): only `"ai"`/`"human"` are
accepted (else a 400 response, modelled by the `false` flag); an accepted
mode is written through to the conversation. -/
def set_mode (st : InboxState) (conv_id : Nat) (mode : String) : InboxState × Bool :=
  if !(mode == "ai" || mode == "human") then (st, false)
  else
    match st.convs.find? (fun c => c.id == conv_id) with
    | none => (st, true)
    | some conv =>
      let conv' := { conv with mode := mode }
      ({ st with convs := st.convs.map (fun c => if c.id == conv_id then conv' else c) }, true)

/-- The non-empty provider message ids currently stored, in row order. -/
def truthyMids (msgs : List InboxMessage) : List String :=
  msgs.filterMap (fun m =>
    match m.message_id with
    | some s => if s == "" then none else some s
    | none => none)

/-- The guards of the routing chain that precede the SEBI-rewrite branch
(src/app.py lines 356-416): a body matching any of them is dispatched as a
command, not as free text. -/
def recognizedCommand (body : String) : Bool :=
  ROUTE_MENU_KEYWORDS.contains (strLower body) ||
    body == "MARKET_BRIEF" || body == "WHY_MARKET_MOVED" || body == "RISK_ALERTS" ||
    body == "CALL_PRIORITY" || body == "SEBI_ADVISORY" || body == "CLIENT_AI" ||
    body == "CALL_SUMMARY" ||
    (body == "SETTINGS" || ["settings", "upgrade"].contains (strLower body))

/-- A 4097-character text, one character past the provider limit. -/
def longText : String := String.mk (List.replicate 4097 'a')

/-! ## Helper lemmas -/

theorem find?_map_of_pred {α : Type} (f : α → α) (p : α → Bool) (l : List α)
    (hp : ∀ a, p (f a) = p a) :
    (l.map f).find? p = (l.find? p).map f := by
  induction l with
  | nil => rfl
  | cons a t ih =>
    cases h : p a <;> simp [List.find?, hp, h, ih]

theorem flagViolates_enforceStep (tenant_id : Nat) (allow : List String) (r : FeatureFlag) :
    flagViolates tenant_id allow (enforceStep tenant_id allow r) = false := by
  unfold enforceStep
  by_cases h : flagViolates tenant_id allow r = true
  · rw [if_pos h]
    unfold flagViolates
    simp
  · rw [if_neg h]
    simpa using h

theorem enforceStep_idem (tenant_id : Nat) (allow : List String) (r : FeatureFlag) :
    enforceStep tenant_id allow (enforceStep tenant_id allow r) =
      enforceStep tenant_id allow r := by
  have h := flagViolates_enforceStep tenant_id allow r
  generalize hs : enforceStep tenant_id allow r = s at h ⊢
  unfold enforceStep
  rw [h]
  simp

theorem enforceStep_pred (tenant_id : Nat) (allow : List String) (tid : Nat) (K : String)
    (r : FeatureFlag) :
    ((enforceStep tenant_id allow r).tenant_id == tid &&
        (enforceStep tenant_id allow r).flag_key == K) =
      (r.tenant_id == tid && r.flag_key == K) := by
  unfold enforceStep
  split <;> rfl

theorem enforce_plan_tenants (db : DB) (tenant_id : Nat) :
    (enforce_plan db tenant_id).db.tenants = db.tenants := by
  cases h : db.getTenant tenant_id <;> simp [enforce_plan, h]

theorem enforce_plan_logs (db : DB) (tenant_id : Nat) :
    (enforce_plan db tenant_id).db.logs = db.logs := by
  cases h : db.getTenant tenant_id <;> simp [enforce_plan, h]

theorem enforce_plan_flags (db : DB) (tenant_id : Nat) (t : Tenant)
    (ht : db.getTenant tenant_id = some t) :
    (enforce_plan db tenant_id).db.flags =
      db.flags.map (enforceStep tenant_id (allowed_features t.plan)) := by
  simp [enforce_plan, ht]

theorem enforce_plan_getTenant (db : DB) (tenant_id tid : Nat) :
    (enforce_plan db tenant_id).db.getTenant tid = db.getTenant tid := by
  unfold DB.getTenant
  rw [enforce_plan_tenants]

theorem enforce_plan_mapping (db : DB) (tenant_id : Nat) (t : Tenant)
    (ht : db.getTenant tenant_id = some t) :
    (enforce_plan db tenant_id).mapping =
      mkFlagDict ((enforce_plan db tenant_id).db.flags.filter
        (fun r => r.tenant_id == tenant_id)) := by
  simp [enforce_plan, ht]

theorem enforce_plan_changed (db : DB) (tenant_id : Nat) (t : Tenant)
    (ht : db.getTenant tenant_id = some t) :
    (enforce_plan db tenant_id).changed =
      db.flags.any (flagViolates tenant_id (allowed_features t.plan)) := by
  simp [enforce_plan, ht]

theorem is_enabled_enforce (db : DB) (tenant_id : Nat) (t : Tenant)
    (ht : db.getTenant tenant_id = some t) (tid : Nat) (K : String) :
    is_enabled (enforce_plan db tenant_id).db tid K =
      match db.flags.find? (fun r => r.tenant_id == tid && r.flag_key == K) with
      | some r => (enforceStep tenant_id (allowed_features t.plan) r).enabled
      | none => false := by
  unfold is_enabled
  rw [enforce_plan_flags db tenant_id t ht,
    find?_map_of_pred _ _ _ (fun r => enforceStep_pred tenant_id _ tid K r)]
  cases db.flags.find? (fun r => r.tenant_id == tid && r.flag_key == K) <;> rfl

theorem is_enabled_enforce_some (db : DB) (tenant_id : Nat) (t : Tenant)
    (ht : db.getTenant tenant_id = some t) (tid : Nat) (K : String) (r : FeatureFlag)
    (hf : db.flags.find? (fun r => r.tenant_id == tid && r.flag_key == K) = some r) :
    is_enabled (enforce_plan db tenant_id).db tid K =
      (enforceStep tenant_id (allowed_features t.plan) r).enabled := by
  rw [is_enabled_enforce db tenant_id t ht tid K, hf]

theorem is_enabled_enforce_none (db : DB) (tenant_id : Nat) (t : Tenant)
    (ht : db.getTenant tenant_id = some t) (tid : Nat) (K : String)
    (hf : db.flags.find? (fun r => r.tenant_id == tid && r.flag_key == K) = none) :
    is_enabled (enforce_plan db tenant_id).db tid K = false := by
  rw [is_enabled_enforce db tenant_id t ht tid K, hf]

/-! ## Claim theorems -/

/-- C1: for every existing tenant, after `enforce_plan` completes, every
feature key reported enabled by `is_enabled` is in the allowed-feature set
of the tenant's plan. -/
theorem c1_enforce_isEnabled_allowed (db : DB) (tid : Nat) (t : Tenant)
    (ht : db.getTenant tid = some t) (K : String)
    (h : is_enabled (enforce_plan db tid).db tid K = true) :
    K ∈ allowed_features t.plan := by
  cases hf : db.flags.find? (fun r => r.tenant_id == tid && r.flag_key == K) with
  | none =>
    rw [is_enabled_enforce_none db tid t ht tid K hf] at h
    exact absurd h (by simp)
  | some r =>
    rw [is_enabled_enforce_some db tid t ht tid K r hf] at h
    have hp := List.find?_some hf
    simp only [Bool.and_eq_true, beq_iff_eq] at hp
    unfold enforceStep at h
    by_cases hv : flagViolates tid (allowed_features t.plan) r = true
    · rw [if_pos hv] at h
      exact absurd h (by simp)
    · rw [if_neg hv] at h
      have hv' : flagViolates tid (allowed_features t.plan) r = false := by
        simpa using hv
      unfold flagViolates at hv'
      simp only [hp.1, hp.2, h, Bool.and_true, true_and, beq_self_eq_true,
        Bool.not_eq_false'] at hv'
      simpa using hv'

/-- Witness for C1 at a concrete database. -/
theorem c1_enforce_isEnabled_allowed_witness :
    (DB.getTenant ⟨[⟨1, "Default Tenant", "starter"⟩], [⟨1, F_MARKET_BRIEF, true⟩], []⟩ 1 =
      some ⟨1, "Default Tenant", "starter"⟩) ∧
    (is_enabled (enforce_plan ⟨[⟨1, "Default Tenant", "starter"⟩],
        [⟨1, F_MARKET_BRIEF, true⟩], []⟩ 1).db 1 F_MARKET_BRIEF = true) ∧
    F_MARKET_BRIEF ∈ allowed_features "starter" :=
  ⟨by decide, by decide,
    c1_enforce_isEnabled_allowed ⟨[⟨1, "Default Tenant", "starter"⟩],
      [⟨1, F_MARKET_BRIEF, true⟩], []⟩ 1 ⟨1, "Default Tenant", "starter"⟩
      (by decide) F_MARKET_BRIEF (by decide)⟩

/-- C2: running `enforce_plan` twice with no intervening mutation returns
identical flag mappings, and the second run sets `changed = false`, so it
never commits. -/
theorem c2_enforce_idempotent (db : DB) (tid : Nat) :
    (enforce_plan (enforce_plan db tid).db tid).mapping = (enforce_plan db tid).mapping ∧
    (enforce_plan (enforce_plan db tid).db tid).changed = false := by
  cases ht : db.getTenant tid with
  | none =>
    have ht2 : (enforce_plan db tid).db.getTenant tid = none := by
      rw [enforce_plan_getTenant]; exact ht
    simp [enforce_plan, ht, ht2]
  | some t =>
    have ht2 : (enforce_plan db tid).db.getTenant tid = some t := by
      rw [enforce_plan_getTenant]; exact ht
    have hflags := enforce_plan_flags db tid t ht
    have hstep : ((enforce_plan db tid).db.flags.map
        (enforceStep tid (allowed_features t.plan))) = (enforce_plan db tid).db.flags := by
      rw [hflags, List.map_map]
      exact List.map_congr_left (fun a _ => enforceStep_idem tid _ a)
    have hchanged : ((enforce_plan db tid).db.flags.any
        (flagViolates tid (allowed_features t.plan))) = false := by
      rw [hflags, List.any_map]
      simp only [List.any_eq_false, Function.comp_apply]
      exact fun a _ => by simp [flagViolates_enforceStep]
    constructor
    · rw [enforce_plan_mapping (enforce_plan db tid).db tid t ht2,
        enforce_plan_mapping db tid t ht,
        enforce_plan_flags (enforce_plan db tid).db tid t ht2, hstep]
    · rw [enforce_plan_changed (enforce_plan db tid).db tid t ht2]
      exact hchanged

/-- C3: enforcement is monotone-downward: an enabled flag whose key the
plan disallows is disabled by `enforce_plan`, and a disabled flag is never
enabled by `enforce_plan`, even when the plan allows its key. -/
theorem c3_enforce_monotone_downward (db : DB) (tid : Nat) (t : Tenant)
    (ht : db.getTenant tid = some t) :
    (∀ K, is_enabled db tid K = true → K ∉ allowed_features t.plan →
      is_enabled (enforce_plan db tid).db tid K = false) ∧
    (∀ K, is_enabled db tid K = false →
      is_enabled (enforce_plan db tid).db tid K = false) := by
  constructor
  · intro K hen hK
    cases hf : db.flags.find? (fun r => r.tenant_id == tid && r.flag_key == K) with
    | none => exact is_enabled_enforce_none db tid t ht tid K hf
    | some r =>
      rw [is_enabled_enforce_some db tid t ht tid K r hf]
      unfold is_enabled at hen
      rw [hf] at hen
      have hen' : r.enabled = true := hen
      have hp := List.find?_some hf
      simp only [Bool.and_eq_true, beq_iff_eq] at hp
      have hv : flagViolates tid (allowed_features t.plan) r = true := by
        unfold flagViolates
        simp only [hp.1, hp.2, beq_self_eq_true, Bool.true_and, hen']
        simpa using hK
      unfold enforceStep
      rw [if_pos hv]
  · intro K hdis
    cases hf : db.flags.find? (fun r => r.tenant_id == tid && r.flag_key == K) with
    | none => exact is_enabled_enforce_none db tid t ht tid K hf
    | some r =>
      rw [is_enabled_enforce_some db tid t ht tid K r hf]
      unfold is_enabled at hdis
      rw [hf] at hdis
      have hdis' : r.enabled = false := hdis
      have hv : ¬ flagViolates tid (allowed_features t.plan) r = true := by
        unfold flagViolates
        simp [hdis']
      unfold enforceStep
      rw [if_neg hv]
      exact hdis'

/-- Witness for C3 at a concrete database: an enabled, disallowed
`F_RISK_RADAR` is disabled; a disabled `F_CALL_AI` stays disabled. -/
theorem c3_enforce_monotone_downward_witness :
    (DB.getTenant ⟨[⟨1, "T", "starter"⟩],
        [⟨1, F_RISK_RADAR, true⟩, ⟨1, F_CALL_AI, false⟩], []⟩ 1 = some ⟨1, "T", "starter"⟩) ∧
    (is_enabled ⟨[⟨1, "T", "starter"⟩],
        [⟨1, F_RISK_RADAR, true⟩, ⟨1, F_CALL_AI, false⟩], []⟩ 1 F_RISK_RADAR = true) ∧
    F_RISK_RADAR ∉ allowed_features "starter" ∧
    (is_enabled (enforce_plan ⟨[⟨1, "T", "starter"⟩],
        [⟨1, F_RISK_RADAR, true⟩, ⟨1, F_CALL_AI, false⟩], []⟩ 1).db 1 F_RISK_RADAR = false) ∧
    (is_enabled (enforce_plan ⟨[⟨1, "T", "starter"⟩],
        [⟨1, F_RISK_RADAR, true⟩, ⟨1, F_CALL_AI, false⟩], []⟩ 1).db 1 F_CALL_AI = false) :=
  ⟨by decide, by decide, by decide,
    (c3_enforce_monotone_downward ⟨[⟨1, "T", "starter"⟩],
        [⟨1, F_RISK_RADAR, true⟩, ⟨1, F_CALL_AI, false⟩], []⟩ 1 ⟨1, "T", "starter"⟩
        (by decide)).1 F_RISK_RADAR (by decide) (by decide),
    (c3_enforce_monotone_downward ⟨[⟨1, "T", "starter"⟩],
        [⟨1, F_RISK_RADAR, true⟩, ⟨1, F_CALL_AI, false⟩], []⟩ 1 ⟨1, "T", "starter"⟩
        (by decide)).2 F_CALL_AI (by decide)⟩

theorem PLAN_FEATURES_lookup_ne_nil (k : String) (v : List String)
    (h : PLAN_FEATURES.lookup k = some v) : v ≠ [] := by
  unfold PLAN_FEATURES at h
  simp only [List.lookup] at h
  repeat' split at h
  all_goals first
    | (injection h with h; subst h; decide)
    | (cases h)

/-- C7: `allowed_features` is total, never returns the empty set, and maps
every unrecognized (after lowercasing) or empty plan name to the
`"starter"` feature set. -/
theorem c7_allowed_features_fallback (p : String) :
    allowed_features p ≠ [] ∧
    (strLower p ∉ ["starter", "pro", "elite", "enterprise"] →
      allowed_features p = allowed_features "starter") ∧
    allowed_features "" = allowed_features "starter" := by
  refine ⟨?_, ?_, by decide⟩
  · cases hl : PLAN_FEATURES.lookup (strLower p) with
    | none =>
      unfold allowed_features
      rw [hl]
      simp only [Option.getD_none]
      decide
    | some v =>
      unfold allowed_features
      rw [hl]
      simp only [Option.getD_some]
      exact PLAN_FEATURES_lookup_ne_nil _ v hl
  · intro h
    simp only [List.mem_cons, List.not_mem_nil, or_false, not_or] at h
    obtain ⟨h1, h2, h3, h4⟩ := h
    have e1 : (strLower p == "starter") = false := beq_eq_false_iff_ne.mpr h1
    have e2 : (strLower p == "pro") = false := beq_eq_false_iff_ne.mpr h2
    have e3 : (strLower p == "elite") = false := beq_eq_false_iff_ne.mpr h3
    have e4 : (strLower p == "enterprise") = false := beq_eq_false_iff_ne.mpr h4
    unfold allowed_features PLAN_FEATURES
    simp only [List.lookup, e1, e2, e3, e4]
    decide

/-- Witness for C7 at the concrete unknown plan name `"gold"`. -/
theorem c7_allowed_features_fallback_witness :
    (strLower "gold" ∉ ["starter", "pro", "elite", "enterprise"]) ∧
    allowed_features "gold" ≠ [] ∧
    allowed_features "gold" = allowed_features "starter" :=
  ⟨by decide, (c7_allowed_features_fallback "gold").1,
    (c7_allowed_features_fallback "gold").2.1 (by decide)⟩

/-- C4: when the SEBI-advisory flag is enabled, a free-text body that is
not a recognized command, is longer than 15 characters, and contains a
deny-listed risk substring (case-insensitively) is answered with the fixed
compliance-safe rewrite template, not passed through. -/
theorem c4_risky_freetext_rewrite (db : DB) (tid : Nat) (wa_from wa_to body : String)
    (hcomp : is_enabled db tid F_SEBI_ADVISORY = true)
    (hrec : recognizedCommand body = false)
    (hlen : body.length > 15)
    (hrisk : RISK_WORDS.any (fun x => containsSub (strLower body) x) = true) :
    route db tid wa_from wa_to body =
      (db, [Effect.flagRead, Effect.sendText wa_from SAFE_REWRITE]) := by
  unfold recognizedCommand at hrec
  simp only [Bool.or_eq_false_iff] at hrec
  obtain ⟨⟨⟨⟨⟨⟨⟨⟨h1, h2⟩, h3⟩, h4⟩, h5⟩, h6⟩, h7⟩, h8⟩, h9a, h9b⟩ := hrec
  have hd : decide (body.length > 15) = true := decide_eq_true hlen
  unfold route
  simp only [h1, h2, h3, h4, h5, h6, h7, h8, h9a, h9b, hcomp, hd, hrisk,
    Bool.false_eq_true, if_false, Bool.or_self, Bool.and_self, Bool.and_true,
    Bool.true_and, if_true]

/-- Witness for C4: a 20-character body containing "guaranteed returns"
with the SEBI-advisory flag enabled is answered with the safe rewrite. -/
theorem c4_risky_freetext_rewrite_witness :
    (is_enabled ⟨[⟨1, "T", "starter"⟩], [⟨1, F_SEBI_ADVISORY, true⟩], []⟩ 1
      F_SEBI_ADVISORY = true) ∧
    recognizedCommand "guaranteed returnsab" = false ∧
    ("guaranteed returnsab".length > 15) ∧
    (RISK_WORDS.any (fun x => containsSub (strLower "guaranteed returnsab") x) = true) ∧
    route ⟨[⟨1, "T", "starter"⟩], [⟨1, F_SEBI_ADVISORY, true⟩], []⟩ 1
        "919876543210" "918000000000" "guaranteed returnsab" =
      (⟨[⟨1, "T", "starter"⟩], [⟨1, F_SEBI_ADVISORY, true⟩], []⟩,
        [Effect.flagRead, Effect.sendText "919876543210" SAFE_REWRITE]) :=
  ⟨by decide, by decide, by decide, by decide,
    c4_risky_freetext_rewrite ⟨[⟨1, "T", "starter"⟩], [⟨1, F_SEBI_ADVISORY, true⟩], []⟩ 1
      "919876543210" "918000000000" "guaranteed returnsab"
      (by decide) (by decide) (by decide) (by decide)⟩

/-- C6 counterexample: in main.py's `verify_webhook`, a GET with all three
`hub.*` parameters absent is answered 200 "OK", not a 403-class failure,
even though `hub.mode` is not "subscribe" — refuting the claim that every
combination other than a valid (mode, token) pair yields a 403. -/
theorem c6_counterexample :
    verify_webhook "gourav_wa_verify_2025" none none none = VerifyResponse.ok "OK" ∧
    verify_webhook "gourav_wa_verify_2025" none none none ≠ VerifyResponse.forbidden ∧
    (none : Option String) ≠ some "subscribe" := by decide

/-- C6 amended: app.py's `wa_verify` echoes `str(challenge)` exactly when
mode is "subscribe" and the token matches, and 403s otherwise; main.py's
`verify_webhook` does the same except that (a) a request with all three
parameters falsy is answered 200 "OK" and (b) the 200-echo path also
requires a truthy challenge. -/
theorem c6_amended (secret : String) (mode token challenge : Option String) :
    ((mode = some "subscribe" ∧ token = some secret) →
      wa_verify secret mode token challenge = VerifyResponse.ok (pyStr challenge)) ∧
    (¬ (mode = some "subscribe" ∧ token = some secret) →
      wa_verify secret mode token challenge = VerifyResponse.forbidden) ∧
    ((optTruthy mode = false ∧ optTruthy token = false ∧ optTruthy challenge = false) →
      verify_webhook secret mode token challenge = VerifyResponse.ok "OK") ∧
    ((mode = some "subscribe" ∧ token = some secret ∧ optTruthy challenge = true) →
      verify_webhook secret mode token challenge = VerifyResponse.ok (pyStr challenge)) ∧
    (¬ (optTruthy mode = false ∧ optTruthy token = false ∧ optTruthy challenge = false) →
      ¬ (mode = some "subscribe" ∧ token = some secret ∧ optTruthy challenge = true) →
      verify_webhook secret mode token challenge = VerifyResponse.forbidden) := by
  refine ⟨?_, ?_, ?_, ?_, ?_⟩
  · rintro ⟨h1, h2⟩
    subst h1
    subst h2
    simp [wa_verify]
  · intro h
    by_cases hb : (mode == some "subscribe" && token == some secret) = true
    · exfalso
      apply h
      simpa [Bool.and_eq_true, beq_iff_eq] using hb
    · unfold wa_verify
      rw [if_neg hb]
  · rintro ⟨h1, h2, h3⟩
    unfold verify_webhook
    simp [h1, h2, h3]
  · rintro ⟨h1, h2, h3⟩
    subst h1
    subst h2
    cases challenge with
    | none => exact absurd h3 (by simp [optTruthy])
    | some c =>
      unfold verify_webhook
      simp only [optTruthy] at h3 ⊢
      simp [h3, pyStr]
  · intro h1 h2
    unfold verify_webhook
    by_cases hb1 : (!optTruthy mode && !optTruthy token && !optTruthy challenge) = true
    · exfalso
      apply h1
      simpa [Bool.and_eq_true, Bool.not_eq_true', and_assoc] using hb1
    · rw [if_neg hb1]
      by_cases hb2 : (mode == some "subscribe" && token == some secret && optTruthy challenge) = true
      · exfalso
        apply h2
        simpa [Bool.and_eq_true, beq_iff_eq, and_assoc] using hb2
      · rw [if_neg hb2]

/-- Witness for C6 amended at concrete parameters. -/
theorem c6_amended_witness :
    wa_verify "s" (some "subscribe") (some "s") (some "42") = VerifyResponse.ok "42" ∧
    verify_webhook "s" (some "subscribe") (some "s") (some "42") = VerifyResponse.ok "42" ∧
    wa_verify "s" (some "subscribe") (some "bad") none = VerifyResponse.forbidden :=
  ⟨(c6_amended "s" (some "subscribe") (some "s") (some "42")).1 ⟨rfl, rfl⟩,
    (c6_amended "s" (some "subscribe") (some "s") (some "42")).2.2.2.1
      ⟨rfl, rfl, by decide⟩,
    (c6_amended "s" (some "subscribe") (some "bad") none).2.1 (by simp)⟩

/-- C8 counterexample: app.py's `send_text` places a 4097-character body in
the provider request unmodified, refuting the claim that every outbound
text send truncates to at most 4096 characters. -/
theorem c8_counterexample :
    (send_text_payload "919876543210" longText).body.length = 4097 ∧
    4096 < (send_text_payload "919876543210" longText).body.length := by
  have h : (send_text_payload "919876543210" longText).body.length = 4097 := by
    show (List.replicate 4097 'a').length = 4097
    rw [List.length_replicate]
  exact ⟨h, by rw [h]; norm_num⟩

/-- C8 amended: main.py's `wa_send_text` does truncate the body to the
first 4096 characters (so its payload body never exceeds 4096 characters),
while app.py's `send_text` places the input body in the payload
unmodified. -/
theorem c8_amended (dest text : String) :
    (wa_send_text_payload dest text).body = strTake text 4096 ∧
    (wa_send_text_payload dest text).body.length ≤ 4096 ∧
    (send_text_payload dest text).body = text := by
  refine ⟨rfl, ?_, rfl⟩
  show (strTake text 4096).length ≤ 4096
  have h : (strTake text 4096).length = min 4096 text.data.length := by
    show (List.take 4096 text.data).length = min 4096 text.data.length
    exact List.length_take _ _
  rw [h]
  exact Nat.min_le_left _ _

/-- C5 counterexample: on a status-callback delivery (no `messages`
array), app.py's `wa_inbound` still performs a flag read — `enforce_plan`
runs on line 346 before the payload is parsed — refuting "no flag reads". -/
theorem c5_counterexample :
    Effect.flagRead ∈ (wa_inbound ⟨[⟨1, "Default Tenant", "starter"⟩],
      [⟨1, F_MARKET_BRIEF, true⟩], []⟩ 1 ⟨[], ""⟩).effects := by decide

/-- C5 amended: a delivery without a `messages` array is acknowledged as
success by both handlers, with no outbound send and no stored message; the
main.py handler additionally performs no flag access at all, while the
app.py handler still runs plan enforcement (a flag read and possibly a
flag commit) before detecting the missing array. -/
theorem c5_amended (db : DB) (tid : Nat) (payload : WAValue)
    (hm : payload.messages = []) (st : InboxState) (p : WHPayload)
    (hp : p.messages = []) :
    (wa_inbound db tid payload).ok = true ∧
    (∀ e ∈ (wa_inbound db tid payload).effects,
      e = Effect.flagRead ∨ e = Effect.flagCommit) ∧
    (wa_inbound db tid payload).db.logs = db.logs ∧
    receive_webhook st p = (st, WebhookResponse.ok, []) := by
  have hparse : parse_inbound payload = none := by
    unfold parse_inbound
    rw [hm]
  refine ⟨?_, ?_, ?_, ?_⟩
  · unfold wa_inbound
    rw [hparse]
  · intro e he
    unfold wa_inbound at he
    rw [hparse] at he
    simp only [List.mem_cons] at he
    rcases he with h | h
    · exact Or.inl h
    · split at h
      · simp only [List.mem_singleton] at h
        exact Or.inr h
      · simp at h
  · unfold wa_inbound
    rw [hparse]
    exact enforce_plan_logs db tid
  · unfold receive_webhook
    rw [hp]

/-- Witness for C5 amended at a concrete empty-`messages` delivery. -/
theorem c5_amended_witness :
    ((⟨[], ""⟩ : WAValue).messages = []) ∧
    ((⟨[], []⟩ : WHPayload).messages = []) ∧
    (wa_inbound ⟨[⟨1, "Default Tenant", "starter"⟩], [⟨1, F_MARKET_BRIEF, true⟩], []⟩
      1 ⟨[], ""⟩).ok = true ∧
    receive_webhook ⟨[], [], 1, 1⟩ ⟨[], []⟩ = (⟨[], [], 1, 1⟩, WebhookResponse.ok, []) :=
  ⟨rfl, rfl,
    (c5_amended ⟨[⟨1, "Default Tenant", "starter"⟩], [⟨1, F_MARKET_BRIEF, true⟩], []⟩
      1 ⟨[], ""⟩ rfl ⟨[], [], 1, 1⟩ ⟨[], []⟩ rfl).1,
    (c5_amended ⟨[⟨1, "Default Tenant", "starter"⟩], [⟨1, F_MARKET_BRIEF, true⟩], []⟩
      1 ⟨[], ""⟩ rfl ⟨[], [], 1, 1⟩ ⟨[], []⟩ rfl).2.2.2⟩

theorem upsert_conversation_mode (st : InboxState) (w : String) (n : Option String) :
    (upsert_conversation st w n).2.mode =
      match st.convs.find? (fun c => c.wa_id == w) with
      | some c => c.mode
      | none => "ai" := by
  cases hf : st.convs.find? (fun c => c.wa_id == w) with
  | none =>
    unfold upsert_conversation
    rw [hf]
  | some conv =>
    unfold upsert_conversation
    rw [hf]
    dsimp only
    split <;> rfl

theorem upsert_conversation_msgs (st : InboxState) (w : String) (n : Option String) :
    (upsert_conversation st w n).1.msgs = st.msgs := by
  cases hf : st.convs.find? (fun c => c.wa_id == w) with
  | none =>
    unfold upsert_conversation
    rw [hf]
  | some conv =>
    unfold upsert_conversation
    rw [hf]
    dsimp only
    split <;> rfl

theorem find?_map_replace (l : List Conversation) (conv_id : Nat) (conv' : Conversation)
    (hid : (conv'.id == conv_id) = true)
    (h : (l.find? (fun c => c.id == conv_id)).isSome = true) :
    (l.map (fun c => if c.id == conv_id then conv' else c)).find?
      (fun c => c.id == conv_id) = some conv' := by
  induction l with
  | nil => simp at h
  | cons a t ih =>
    by_cases ha : (a.id == conv_id) = true
    · simp only [List.map_cons, if_pos ha, List.find?_cons, hid]
    · have ha' : (a.id == conv_id) = false := by simpa using ha
      have h' : (t.find? (fun c => c.id == conv_id)).isSome = true := by
        simp only [List.find?_cons, ha'] at h
        exact h
      simp only [List.map_cons, List.find?_cons, ha', Bool.false_eq_true, if_false]
      exact ih h'

/-- C9: in the inbox variant, an inbound message for a conversation in
`"human"` mode is acknowledged without an AI call or outbound send; an AI
reply happens only when the conversation (existing or freshly created) is
in `"ai"` mode; and `assign_to_me` forces `mode = "human"` and sets the
assignee. -/
theorem c9_human_handoff (st st2 : InboxState) (msg : WHMessage)
    (rest : List WHMessage) (cs : List (Option String)) (agent_id conv_id : Nat) :
    (∀ conv, st.convs.find? (fun c => c.wa_id == msg.msg_from.getD "") = some conv →
      conv.mode = "human" →
      MEffect.aiCall ∉ (receive_webhook st ⟨msg :: rest, cs⟩).2.2 ∧
      ∀ d b, MEffect.waSend d b ∉ (receive_webhook st ⟨msg :: rest, cs⟩).2.2) ∧
    ((∀ c ∈ st.convs, c.mode = "ai" ∨ c.mode = "human") →
      MEffect.aiCall ∈ (receive_webhook st ⟨msg :: rest, cs⟩).2.2 →
      (match st.convs.find? (fun c => c.wa_id == msg.msg_from.getD "") with
        | some c => c.mode
        | none => "ai") = "ai") ∧
    (∀ conv, st2.convs.find? (fun c => c.id == conv_id) = some conv →
      ∃ conv2, (assign_to_me st2 agent_id conv_id).convs.find?
          (fun c => c.id == conv_id) = some conv2 ∧
        conv2.mode = "human" ∧ conv2.assigned_agent_id = some agent_id) := by
  refine ⟨?_, ?_, ?_⟩
  · intro conv hf hm
    cases hts : msg.timestamp with
    | none => simp [receive_webhook, hts]
    | some ts =>
      by_cases hguard :
          (!optTruthy msg.msg_from || strTrim (msg.text_body.getD "") == "") = true
      · simp [receive_webhook, hts, hguard]
      · have hmode : ((upsert_conversation st (msg.msg_from.getD "")
            (cs.headD none)).2.mode == "human") = true := by
          rw [upsert_conversation_mode, hf]
          simp [hm]
        constructor
        · simp only [receive_webhook, hts, hguard, hmode, Bool.false_eq_true, if_false,
            if_true]
          split <;> simp
        · intro d b
          simp only [receive_webhook, hts, hguard, hmode, Bool.false_eq_true, if_false,
            if_true]
          split <;> simp
  · intro hwf hmem
    cases hts : msg.timestamp with
    | none => simp [receive_webhook, hts] at hmem
    | some ts =>
      by_cases hguard :
          (!optTruthy msg.msg_from || strTrim (msg.text_body.getD "") == "") = true
      · simp [receive_webhook, hts, hguard] at hmem
      · cases hf2 : st.convs.find? (fun c => c.wa_id == msg.msg_from.getD "") with
        | none => rfl
        | some c =>
          show c.mode = "ai"
          rcases hwf c (List.mem_of_find?_eq_some hf2) with h | h
          · exact h
          · exfalso
            have hmode : ((upsert_conversation st (msg.msg_from.getD "")
                (cs.headD none)).2.mode == "human") = true := by
              rw [upsert_conversation_mode, hf2]
              simp [h]
            simp only [receive_webhook, hts, hguard, hmode, Bool.false_eq_true, if_false,
              if_true] at hmem
            revert hmem
            split <;> simp
  · intro conv hf
    refine ⟨{ conv with assigned_agent_id := some agent_id, mode := "human" },
      ?_, rfl, rfl⟩
    unfold assign_to_me
    rw [hf]
    dsimp only
    have hconv : (conv.id == conv_id) = true := by
      have hp := List.find?_some hf
      simpa using hp
    exact find?_map_replace st2.convs conv_id _ hconv (by rw [hf]; rfl)

/-- Witness for C9 at a concrete human-mode conversation, payload and
assignment. -/
theorem c9_human_handoff_witness :
    ((⟨[⟨1, "919111000222", none, "open", "human", some 7⟩], [], 2, 1⟩ :
        InboxState).convs.find?
      (fun c => c.wa_id == ((⟨some "919111000222", some "help me", some "wamid.A",
        some 100⟩ : WHMessage).msg_from.getD "")) =
      some ⟨1, "919111000222", none, "open", "human", some 7⟩) ∧
    MEffect.aiCall ∉ (receive_webhook
      ⟨[⟨1, "919111000222", none, "open", "human", some 7⟩], [], 2, 1⟩
      ⟨[⟨some "919111000222", some "help me", some "wamid.A", some 100⟩], []⟩).2.2 ∧
    (∃ conv2, (assign_to_me
        ⟨[⟨1, "919111000222", none, "open", "human", some 7⟩], [], 2, 1⟩ 7 1).convs.find?
        (fun c => c.id == 1) = some conv2 ∧
      conv2.mode = "human" ∧ conv2.assigned_agent_id = some 7) :=
  ⟨by decide,
    ((c9_human_handoff ⟨[⟨1, "919111000222", none, "open", "human", some 7⟩], [], 2, 1⟩
        ⟨[⟨1, "919111000222", none, "open", "human", some 7⟩], [], 2, 1⟩
        ⟨some "919111000222", some "help me", some "wamid.A", some 100⟩ [] [] 7 1).1
      ⟨1, "919111000222", none, "open", "human", some 7⟩ (by decide) rfl).1,
    (c9_human_handoff ⟨[⟨1, "919111000222", none, "open", "human", some 7⟩], [], 2, 1⟩
        ⟨[⟨1, "919111000222", none, "open", "human", some 7⟩], [], 2, 1⟩
        ⟨some "919111000222", some "help me", some "wamid.A", some 100⟩ [] [] 7 1).2.2
      ⟨1, "919111000222", none, "open", "human", some 7⟩ (by decide)⟩

theorem truthyMids_append (l1 l2 : List InboxMessage) :
    truthyMids (l1 ++ l2) = truthyMids l1 ++ truthyMids l2 :=
  List.filterMap_append _ _ _

theorem truthyMids_cons (m : InboxMessage) (l : List InboxMessage) :
    truthyMids (m :: l) =
      (match m.message_id with
        | some s => if s == "" then none else some s
        | none => none).toList ++ truthyMids l := by
  unfold truthyMids
  rw [List.filterMap_cons]
  cases hm : m.message_id with
  | none => simp
  | some s =>
    by_cases hs : (s == "") = true
    · simp [hs]
    · simp [hs]

theorem mem_truthyMids_message_id (msgs : List InboxMessage) (a : String)
    (h : a ∈ truthyMids msgs) : ∃ m ∈ msgs, m.message_id = some a := by
  unfold truthyMids at h
  rw [List.mem_filterMap] at h
  obtain ⟨m, hmem, hfm⟩ := h
  refine ⟨m, hmem, ?_⟩
  cases hmm : m.message_id with
  | none => rw [hmm] at hfm; cases hfm
  | some s =>
    rw [hmm] at hfm
    dsimp only at hfm
    by_cases h2 : (s == "") = true
    · rw [if_pos h2] at hfm
      cases hfm
    · rw [if_neg h2] at hfm
      injection hfm with he
      rw [he]

theorem save_message_nodup (st : InboxState) (cid : Nat) (dir text : String)
    (mid : Option String) (ag : Option Nat) (ai ts : Nat)
    (h : (truthyMids st.msgs).Nodup) :
    (truthyMids (save_message st cid dir text mid ag ai ts).st.msgs).Nodup := by
  unfold save_message
  by_cases htr : optTruthy mid = true
  · rw [if_pos htr]
    cases hf : st.msgs.find? (fun m => m.message_id == mid) with
    | some m => exact h
    | none =>
      show (truthyMids (st.msgs ++ [⟨st.nextMsgId, cid, dir, mid, text, ts, ag, ai⟩])).Nodup
      rw [truthyMids_append]
      cases hm : mid with
      | none => rw [hm] at htr; exact absurd htr (by simp [optTruthy])
      | some s =>
        have hs : (s == "") = false := by
          rw [hm] at htr
          simpa [optTruthy, Bool.not_eq_true'] using htr
        have hone : truthyMids [(⟨st.nextMsgId, cid, dir, some s, text, ts, ag, ai⟩ :
            InboxMessage)] = [s] := by
          rw [truthyMids_cons]
          simp [hs, truthyMids]
        rw [hone]
        have hnot : s ∉ truthyMids st.msgs := by
          intro hmem
          obtain ⟨m, hm_mem, hm_id⟩ := mem_truthyMids_message_id st.msgs s hmem
          have := List.find?_eq_none.mp hf m hm_mem
          exact this (by simp [hm_id, hm])
        exact List.Nodup.append h (List.nodup_singleton s)
          (by simpa [List.disjoint_singleton] using hnot)
  · rw [if_neg htr]
    show (truthyMids (st.msgs ++ [⟨st.nextMsgId, cid, dir, mid, text, ts, ag, ai⟩])).Nodup
    rw [truthyMids_append]
    have hone : truthyMids [(⟨st.nextMsgId, cid, dir, mid, text, ts, ag, ai⟩ :
        InboxMessage)] = [] := by
      rw [truthyMids_cons]
      cases hm : mid with
      | none => simp [truthyMids]
      | some s =>
        have hs : (s == "") = true := by
          rw [hm] at htr
          simpa [optTruthy] using htr
        simp [hs, truthyMids]
    rw [hone, List.append_nil]
    exact h

/-- C10 counterexample: `save_message` deduplicates only truthy message
ids; with the non-null id `some ""` already stored, a second call inserts
a duplicate row instead of returning the existing one. -/
theorem c10_counterexample :
    ((⟨1, 1, "inbound", some "", "x", 0, none, 0⟩ : InboxMessage) ∈
      (⟨[], [⟨1, 1, "inbound", some "", "x", 0, none, 0⟩], 2, 2⟩ : InboxState).msgs) ∧
    (some "" : Option String) ≠ none ∧
    (save_message ⟨[], [⟨1, 1, "inbound", some "", "x", 0, none, 0⟩], 2, 2⟩ 1 "inbound"
      "y" (some "") none 0 5).inserted = true ∧
    ((save_message ⟨[], [⟨1, 1, "inbound", some "", "x", 0, none, 0⟩], 2, 2⟩ 1 "inbound"
      "y" (some "") none 0 5).st.msgs.filter
        (fun m => m.message_id == some "")).length = 2 := by decide

/-- C10 amended: for every call to `save_message` with a non-null,
non-empty message id that already exists, no new row is created and the
existing row is returned; consequently the non-empty message ids stay
pairwise distinct across every webhook delivery.  (A `some ""` id is falsy
in Python and bypasses the dedup check, which is what the counterexample
exhibits.) -/
theorem c10_save_message_dedup :
    (∀ (st : InboxState) (cid : Nat) (dir text mid : String) (ag : Option Nat)
      (ai ts : Nat) (m : InboxMessage),
      mid ≠ "" → m ∈ st.msgs → m.message_id = some mid →
      (save_message st cid dir text (some mid) ag ai ts).st = st ∧
      (save_message st cid dir text (some mid) ag ai ts).inserted = false ∧
      (save_message st cid dir text (some mid) ag ai ts).msg ∈ st.msgs ∧
      (save_message st cid dir text (some mid) ag ai ts).msg.message_id = some mid) ∧
    (∀ (st : InboxState) (p : WHPayload), (truthyMids st.msgs).Nodup →
      (truthyMids (receive_webhook st p).1.msgs).Nodup) := by
  constructor
  · intro st cid dir text mid ag ai ts m hmid hmem hm_id
    have htr : optTruthy (some mid) = true := by
      simp [optTruthy, hmid]
    unfold save_message
    rw [if_pos htr]
    have hex : (st.msgs.find? (fun m2 => m2.message_id == some mid)).isSome = true :=
      List.find?_isSome.mpr ⟨m, hmem, by simp [hm_id]⟩
    obtain ⟨m', hf⟩ := Option.isSome_iff_exists.mp hex
    rw [hf]
    refine ⟨rfl, rfl, List.mem_of_find?_eq_some hf, ?_⟩
    have hp := List.find?_some hf
    simpa using hp
  · intro st p h
    cases hpm : p.messages with
    | nil =>
      unfold receive_webhook
      rw [hpm]
      exact h
    | cons msg rest =>
      unfold receive_webhook
      rw [hpm]
      dsimp only
      cases hts : msg.timestamp with
      | none => exact h
      | some ts =>
        dsimp only
        by_cases hguard :
            (!optTruthy msg.msg_from || strTrim (msg.text_body.getD "") == "") = true
        · rw [if_pos hguard]
          exact h
        · rw [if_neg hguard]
          by_cases hmode : ((upsert_conversation st (msg.msg_from.getD "")
              (p.contact_names.headD none)).2.mode == "human") = true
          · rw [if_pos hmode]
            exact save_message_nodup _ _ _ _ _ _ _ _
              (by rw [upsert_conversation_msgs]; exact h)
          · rw [if_neg hmode]
            exact save_message_nodup _ _ _ _ _ _ _ _
              (save_message_nodup _ _ _ _ _ _ _ _
                (by rw [upsert_conversation_msgs]; exact h))

/-- Witness for C10 amended: dedup on an existing non-empty id, and
uniqueness preservation across one concrete webhook delivery. -/
theorem c10_save_message_dedup_witness :
    ("wamid.X" ≠ "") ∧
    ((⟨1, 1, "inbound", some "wamid.X", "x", 0, none, 0⟩ : InboxMessage) ∈
      (⟨[], [⟨1, 1, "inbound", some "wamid.X", "x", 0, none, 0⟩], 2, 2⟩ :
        InboxState).msgs) ∧
    (save_message ⟨[], [⟨1, 1, "inbound", some "wamid.X", "x", 0, none, 0⟩], 2, 2⟩
      1 "inbound" "y" (some "wamid.X") none 0 5).inserted = false ∧
    (truthyMids (receive_webhook
      ⟨[], [⟨1, 1, "inbound", some "wamid.X", "x", 0, none, 0⟩], 2, 2⟩
      ⟨[⟨some "919", some "hello", some "wamid.Y", some 10⟩], []⟩).1.msgs).Nodup :=
  ⟨by decide, by decide,
    ((c10_save_message_dedup.1
      ⟨[], [⟨1, 1, "inbound", some "wamid.X", "x", 0, none, 0⟩], 2, 2⟩
      1 "inbound" "y" "wamid.X" none 0 5
      ⟨1, 1, "inbound", some "wamid.X", "x", 0, none, 0⟩
      (by decide) (by decide) rfl).2.1),
    (c10_save_message_dedup.2
      ⟨[], [⟨1, 1, "inbound", some "wamid.X", "x", 0, none, 0⟩], 2, 2⟩
      ⟨[⟨some "919", some "hello", some "wamid.Y", some 10⟩], []⟩ (by decide))⟩

end WhatsAppBot
